import Mathlib

/-!
Verification of the `Azkaban` client class (`azkaban_cli/azkaban.py`).

The class holds a mutable pair of private attributes `__host` and
`__session_id` (both `None` after `__init__`) and exposes the operations
`get_logged_session`, `set_logged_session`, `logout`, `login`, `upload`,
`schedule` and `execute`.  We embed the state as a record of two
`Option String` fields, a parsed JSON response body as an association
list from keys to string values, and each operation as a pure function
from the state and the environment's outcomes (the HTTP request outcome,
the archive-creation outcome, the working directory) to a result record
that carries the returned boolean (or the uncaught Python exception),
whether the request layer was invoked, the log lines emitted, and — for
`upload` — the derived project name, the archive path and whether the
archive file still exists after the call.
-/

set_option linter.unusedVariables false

deriving instance DecidableEq for Except

/-- Parsed JSON object body of an HTTP response: keys mapped to string
values, looked up with `List.lookup` (first match), mirroring Python
dict access (`key in d.keys()` / `d[key]`). -/
abbrev Json := List (String × String)

/-- The mutable state of an `Azkaban` instance: the private attributes
`self.__host` and `self.__session_id` (lines 19-20; `None` is `none`). -/
structure AzState where
  host : Option String
  session_id : Option String
deriving Repr, DecidableEq

/-- State produced by `Azkaban.__init__` (lines 11-20): both attributes
set to `None`. -/
def initState : AzState := { host := none, session_id := none }

/-- Python truthiness of an optional string (`if not self.__session_id`,
`if not project`): `None` and the empty string are falsy. -/
def pyTruthy : Option String → Bool
  | none => false
  | some s => !s.data.isEmpty

/-- One step of `Azkaban.__validate_host`'s while loop, run on the
reversed character list: drop characters equal to `'/'` from the front
(i.e. trailing slashes of the original string). -/
def dropLeadingSlashes : List Char → List Char
  | [] => []
  | c :: cs => if c = '/' then dropLeadingSlashes cs else c :: cs

/-- `Azkaban.__validate_host` (lines 22-28): repeatedly strip a trailing
`'/'` while the string ends with one. -/
def validate_host (host : String) : String :=
  String.mk (dropLeadingSlashes host.data.reverse).reverse

/-- Return value of `Azkaban.get_logged_session` (lines 30-42): the dict
with keys `host` and `session_id`. -/
structure LoggedSession where
  host : Option String
  session_id : Option String
deriving Repr, DecidableEq

/-- `Azkaban.get_logged_session` (lines 30-42): pure read of the two
attributes. -/
def get_logged_session (st : AzState) : LoggedSession :=
  { host := st.host, session_id := st.session_id }

/-- `Azkaban.set_logged_session` (lines 44-54): unconditional overwrite
of both attributes. -/
def set_logged_session (st : AzState) (host session_id : Option String) : AzState :=
  { host := host, session_id := session_id }

/-- `Azkaban.logout` (lines 56-59): `set_logged_session(None, None)`. -/
def logout (st : AzState) : AzState :=
  set_logged_session st none none

/-- Result of a `login` call: the returned boolean (or the uncaught
Python exception as `.error`), the state of the instance after the
call, and the log lines emitted. -/
structure LoginOut where
  result : Except String Bool
  state : AzState
  logs : List String
deriving Repr, DecidableEq

/-- `Azkaban.login` (lines 61-93).  `reqOutcome` is the outcome of
`api.login_request(...).json()`: `none` models a raised
`requests.exceptions.ConnectionError` (the only exception the code
catches), `some j` the parsed JSON body.  On a body with an `error` key
the method logs it and returns `False`; otherwise it reads
`response_json['session.id']` — a `KeyError` (uncaught) if absent — and
commits `(valid_host, session.id)` via `set_logged_session`. -/
def login (st : AzState) (host user password : String) (reqOutcome : Option Json) : LoginOut :=
  let valid_host := validate_host host
  match reqOutcome with
  | none =>
      { result := .ok false, state := st, logs := ["Could not connect to host"] }
  | some response_json =>
      match response_json.lookup "error" with
      | some error_msg =>
          { result := .ok false, state := st, logs := [error_msg] }
      | none =>
          match response_json.lookup "session.id" with
          | none =>
              { result := .error "KeyError: session.id", state := st, logs := [] }
          | some sid =>
              { result := .ok true,
                state := set_logged_session st (some valid_host) (some sid),
                logs := ["Logged as " ++ user] }

/-- Result of a `schedule` or `execute` call: the returned boolean (or
the uncaught Python exception), whether the request layer was invoked,
and the log lines emitted. -/
structure OpOut where
  result : Except String Bool
  requestSent : Bool
  logs : List String
deriving Repr, DecidableEq

/-- `Azkaban.schedule` (lines 147-183).  Guard: `if not
self.__session_id` log and return `False` with no request.  Then the
response is checked for a top-level `error` key; otherwise
`response_json['status']` is compared to `"error"` (a `KeyError` if
absent), with the `message` (and on success `scheduleId`) fields read
the same way. -/
def schedule (st : AzState) (project flow cron : String) (response_json : Json) : OpOut :=
  if pyTruthy st.session_id = false then
    { result := .ok false, requestSent := false, logs := ["You are not logged"] }
  else
    match response_json.lookup "error" with
    | some error_msg =>
        { result := .ok false, requestSent := true, logs := [error_msg] }
    | none =>
        match response_json.lookup "status" with
        | none =>
            { result := .error "KeyError: status", requestSent := true, logs := [] }
        | some status =>
            if status = "error" then
              match response_json.lookup "message" with
              | none =>
                  { result := .error "KeyError: message", requestSent := true, logs := [] }
              | some msg =>
                  { result := .ok false, requestSent := true, logs := [msg] }
            else
              match response_json.lookup "message" with
              | none =>
                  { result := .error "KeyError: message", requestSent := true, logs := [] }
              | some msg =>
                  match response_json.lookup "scheduleId" with
                  | none =>
                      { result := .error "KeyError: scheduleId", requestSent := true,
                        logs := [msg] }
                  | some sid =>
                      { result := .ok true, requestSent := true,
                        logs := [msg, "scheduleId: " ++ sid] }

/-- `Azkaban.execute` (lines 185-219).  Same guard; then `error` key
check, else `response_json['message']` is logged (a `KeyError` if
absent) and `True` returned. -/
def execute (st : AzState) (project flow : String) (response_json : Json) : OpOut :=
  if pyTruthy st.session_id = false then
    { result := .ok false, requestSent := false, logs := ["You are not logged"] }
  else
    match response_json.lookup "error" with
    | some error_msg =>
        { result := .ok false, requestSent := true, logs := [error_msg] }
    | none =>
        match response_json.lookup "message" with
        | none =>
            { result := .error "KeyError: message", requestSent := true, logs := [] }
        | some msg =>
            { result := .ok true, requestSent := true, logs := [msg] }

/-- `os.path.isabs` for POSIX paths: starts with `'/'` (expressed on
the character list so that it evaluates by kernel reduction). -/
def isabs (p : String) : Bool := p.data.head? = some '/'

/-- `posixpath.join` for two components: `b` if absolute, else `a`
and `b` joined with a single `'/'` unless `a` is empty (falsy) or
already ends with one. -/
def pyJoin (a b : String) : String :=
  if isabs b then b
  else if a.data.isEmpty || a.data.getLast? = some '/' then a ++ b
  else a ++ "/" ++ b

/-- Number of leading slashes `posixpath.normpath` preserves:
`startswith('//') and not startswith('///')` gives 2, any other
absolute path 1, a relative path 0. -/
def initialSlashes (p : String) : Nat :=
  match p.data with
  | '/' :: '/' :: '/' :: _ => 1
  | '/' :: '/' :: _ => 2
  | '/' :: _ => 1
  | _ => 0

/-- `str.split('/')` on the character list: the list of components
between slashes (never empty; an empty string yields `[[]]`). -/
def splitOnSlash : List Char → List (List Char)
  | [] => [[]]
  | c :: cs =>
      match splitOnSlash cs with
      | [] => [[]]
      | r :: rs => if c = '/' then [] :: r :: rs else (c :: r) :: rs

/-- `'/'.join(comps)`: components interleaved with single slashes. -/
def joinSlash : List String → String
  | [] => ""
  | [s] => s
  | s :: rest => s ++ "/" ++ joinSlash rest

/-- Component loop of `posixpath.normpath`: skip empty and `"."`
components; append any component other than `".."`; `".."` is appended
when the path is relative and nothing was accumulated or the previous
component is itself `".."`, and otherwise pops the accumulator.  The
accumulator is kept reversed (head = most recent component). -/
def normComps (isAbs : Bool) : List String → List String → List String
  | acc, [] => acc.reverse
  | acc, comp :: rest =>
      if comp = "" || comp = "." then
        normComps isAbs acc rest
      else if comp ≠ ".." || (!isAbs && acc = []) || acc.head? = some ".." then
        normComps isAbs (comp :: acc) rest
      else
        match acc with
        | [] => normComps isAbs [] rest
        | _ :: acc' => normComps isAbs acc' rest

/-- `posixpath.normpath`: empty path becomes `"."`; otherwise split on
`'/'`, normalise components, re-join, restore the preserved leading
slashes, and fall back to `"."` when the result is empty. -/
def normpath (p : String) : String :=
  if p.data.isEmpty then "."
  else
    let isl := initialSlashes p
    let comps := normComps (isl > 0) [] ((splitOnSlash p.data).map String.mk)
    let joined := String.mk (List.replicate isl '/') ++ joinSlash comps
    if joined.data.isEmpty then "." else joined

/-- `os.path.abspath` for POSIX paths, with the working directory made
explicit: join with `cwd` when relative, then normalise. -/
def abspath (cwd p : String) : String :=
  if isabs p then normpath p else normpath (pyJoin cwd p)

/-- `posixpath.basename`: the part after the last `'/'` (the whole
string when there is none). -/
def basename (p : String) : String :=
  String.mk (((splitOnSlash p.data).getLast?).getD [])

/-- Result of an `upload` call: the returned boolean (or the uncaught
Python exception), whether the request layer was invoked, the project
name actually used, the archive path `make_archive` returned (when it
was created), whether the archive file still exists on disk after the
call, and the log lines emitted. -/
structure UploadOut where
  result : Except String Bool
  requestSent : Bool
  projectUsed : Option String
  zipPath : Option String
  zipExistsAfter : Bool
  logs : List String
deriving Repr, DecidableEq

/-- `Azkaban.upload` (lines 95-145).  Guard: `if not self.__session_id`
log and return `False` with no I/O.  `project` defaults to
`os.path.basename(os.path.abspath(path))` when falsy, `zip_name` to
`project` when falsy.  `archiveError = some e` models `make_archive`
raising `FileNotFoundError` with message `e` (caught: log and return
`False`); on success the archive `zip_name + ".zip"` exists.
`reqOutcome = none` models the upload request raising a connection
error, which `upload` does NOT catch (the exception propagates and the
archive is leaked); `some j` is the parsed body, after which
`os.remove(zip_path)` runs before the body is evaluated, so the archive
is gone on every later path, including the `KeyError` on a missing
`version` key. -/
def upload (st : AzState) (path : String) (project zip_name : Option String)
    (cwd : String) (archiveError : Option String) (reqOutcome : Option Json) : UploadOut :=
  if pyTruthy st.session_id = false then
    { result := .ok false, requestSent := false, projectUsed := none,
      zipPath := none, zipExistsAfter := false, logs := ["You are not logged"] }
  else
    let proj : String :=
      match project with
      | none => basename (abspath cwd path)
      | some s => if s.data.isEmpty then basename (abspath cwd path) else s
    let zname : String :=
      match zip_name with
      | none => proj
      | some s => if s.data.isEmpty then proj else s
    match archiveError with
    | some e =>
        { result := .ok false, requestSent := false, projectUsed := some proj,
          zipPath := none, zipExistsAfter := false, logs := [e] }
    | none =>
        let zip_path := zname ++ ".zip"
        match reqOutcome with
        | none =>
            { result := .error "ConnectionError", requestSent := true,
              projectUsed := some proj, zipPath := some zip_path,
              zipExistsAfter := true, logs := [] }
        | some response_json =>
            match response_json.lookup "error" with
            | some error_msg =>
                { result := .ok false, requestSent := true, projectUsed := some proj,
                  zipPath := some zip_path, zipExistsAfter := false, logs := [error_msg] }
            | none =>
                match response_json.lookup "version" with
                | none =>
                    { result := .error "KeyError: version", requestSent := true,
                      projectUsed := some proj, zipPath := some zip_path,
                      zipExistsAfter := false, logs := [] }
                | some version =>
                    { result := .ok true, requestSent := true, projectUsed := some proj,
                      zipPath := some zip_path, zipExistsAfter := false,
                      logs := ["Project " ++ proj ++ " updated to version " ++ version] }

/-- One invocation of a public operation of the class, with the
environment outcomes it needs. -/
inductive Event where
  | loginEv (host user password : String) (reqOutcome : Option Json)
  | logoutEv
  | setSessionEv (host session_id : Option String)
  | uploadEv (path : String) (project zip_name : Option String)
      (cwd : String) (archiveError : Option String) (reqOutcome : Option Json)
  | scheduleEv (project flow cron : String) (response_json : Json)
  | executeEv (project flow : String) (response_json : Json)

/-- Effect of one public operation on the `(host, session_id)` state:
only `login`, `logout` and `set_logged_session` touch the attributes;
`upload`, `schedule` and `execute` never assign to them. -/
def step (st : AzState) : Event → AzState
  | .loginEv h u p o => (login st h u p o).state
  | .logoutEv => logout st
  | .setSessionEv h s => set_logged_session st h s
  | .uploadEv _ _ _ _ _ _ => st
  | .scheduleEv _ _ _ _ => st
  | .executeEv _ _ _ => st

/-- State reached from a fresh instance after a sequence of public
operations. -/
def run (evs : List Event) : AzState :=
  evs.foldl step initState

/-- The session-pair invariant: host and session_id both present or
both absent. -/
def pairInvariant (st : AzState) : Bool :=
  st.host.isSome == st.session_id.isSome

/-- An event that does not use `set_logged_session` to write a mixed
pair: any operation other than `set_logged_session`, or a
`set_logged_session` call passing both values or neither. -/
def goodEvent : Event → Bool
  | .setSessionEv h s => h.isSome == s.isSome
  | _ => true

/-! ## Helper lemmas -/

theorem string_mk_data (s : String) : String.mk s.data = s := rfl

theorem dropLeadingSlashes_head? (l : List Char) :
    (dropLeadingSlashes l).head? ≠ some '/' := by
  induction l with
  | nil => simp [dropLeadingSlashes]
  | cons c cs ih =>
      simp only [dropLeadingSlashes]
      split
      · exact ih
      · next h =>
          simp only [List.head?_cons, ne_eq, Option.some.injEq]
          exact h

theorem dropLeadingSlashes_eq_self (l : List Char) (h : l.head? ≠ some '/') :
    dropLeadingSlashes l = l := by
  cases l with
  | nil => rfl
  | cons c cs =>
      simp only [dropLeadingSlashes, ite_eq_right_iff]
      intro hc
      exact absurd (by simp [hc]) h

theorem dropLeadingSlashes_replicate (l : List Char) :
    ∃ n, l = List.replicate n '/' ++ dropLeadingSlashes l := by
  induction l with
  | nil => exact ⟨0, rfl⟩
  | cons c cs ih =>
      by_cases hc : c = '/'
      · obtain ⟨n, hn⟩ := ih
        subst hc
        refine ⟨n + 1, ?_⟩
        simp only [dropLeadingSlashes, if_pos rfl, List.replicate_succ, List.cons_append,
          List.cons.injEq, true_and]
        exact hn
      · exact ⟨0, by simp [dropLeadingSlashes, hc]⟩

/-! ## Claims -/

/-- C2: `validate_host` removes all trailing `'/'` characters — the
result never ends in `'/'`, the input is the result followed by some
number of `'/'` characters, and an input with no trailing `'/'` is
returned exactly as given. -/
theorem validate_host_strips_trailing_slashes (host : String) :
    (validate_host host).data.getLast? ≠ some '/' ∧
    (∃ n, host.data = (validate_host host).data ++ List.replicate n '/') ∧
    (host.data.getLast? ≠ some '/' → validate_host host = host) := by
  refine ⟨?_, ?_, ?_⟩
  · show (String.mk (dropLeadingSlashes host.data.reverse).reverse).data.getLast? ≠ some '/'
    rw [show (String.mk (dropLeadingSlashes host.data.reverse).reverse).data
        = (dropLeadingSlashes host.data.reverse).reverse from rfl]
    rw [List.getLast?_reverse]
    exact dropLeadingSlashes_head? _
  · obtain ⟨n, hn⟩ := dropLeadingSlashes_replicate host.data.reverse
    refine ⟨n, ?_⟩
    have := congrArg List.reverse hn
    rw [List.reverse_reverse, List.reverse_append, List.reverse_replicate] at this
    exact this
  · intro h
    have hhead : host.data.reverse.head? ≠ some '/' := by
      rw [List.head?_reverse]; exact h
    show String.mk (dropLeadingSlashes host.data.reverse).reverse = host
    rw [dropLeadingSlashes_eq_self _ hhead, List.reverse_reverse, string_mk_data]

/-- C2 witness: concrete evaluations of the three conjuncts. -/
theorem validate_host_strips_trailing_slashes_w :
    validate_host "http://host" = "http://host" :=
  (validate_host_strips_trailing_slashes "http://host").2.2 (by decide)

/-- C1: a failed login — connection error raised by the request, or a
response body carrying an `error` key — returns `False` and leaves the
stored `(host, session_id)` exactly as they were. -/
theorem login_failed_preserves_state (st : AzState) (host user password : String)
    (reqOutcome : Option Json)
    (hfail : reqOutcome = none ∨
      ∃ j, reqOutcome = some j ∧ (j.lookup "error").isSome = true) :
    (login st host user password reqOutcome).result = Except.ok false ∧
    (login st host user password reqOutcome).state = st := by
  rcases hfail with h | ⟨j, hj, herr⟩
  · subst h
    exact ⟨rfl, rfl⟩
  · subst hj
    obtain ⟨msg, hmsg⟩ := Option.isSome_iff_exists.mp herr
    simp [login, hmsg]

/-- C1 witness: a re-login that fails with an `error` body leaves a
prior logged-in state untouched. -/
theorem login_failed_preserves_state_w :
    (login ⟨some "http://old", some "olds"⟩ "http://new/" "u" "p"
      (some [("error", "Incorrect Login")])).result = Except.ok false ∧
    (login ⟨some "http://old", some "olds"⟩ "http://new/" "u" "p"
      (some [("error", "Incorrect Login")])).state = ⟨some "http://old", some "olds"⟩ :=
  login_failed_preserves_state ⟨some "http://old", some "olds"⟩ "http://new/" "u" "p"
    (some [("error", "Incorrect Login")])
    (Or.inr ⟨[("error", "Incorrect Login")], rfl, by decide⟩)

/-- C3: with no session_id stored, `upload`, `schedule` and `execute`
each return `False` and never invoke the request layer. -/
theorem logged_out_rejects (st : AzState) (hst : st.session_id = none)
    (path : String) (project zip_name : Option String) (cwd : String)
    (archiveError : Option String) (reqOutcome : Option Json)
    (pr fl cr : String) (j1 j2 : Json) :
    (upload st path project zip_name cwd archiveError reqOutcome).result = Except.ok false ∧
    (upload st path project zip_name cwd archiveError reqOutcome).requestSent = false ∧
    (schedule st pr fl cr j1).result = Except.ok false ∧
    (schedule st pr fl cr j1).requestSent = false ∧
    (execute st pr fl j2).result = Except.ok false ∧
    (execute st pr fl j2).requestSent = false := by
  have h : pyTruthy st.session_id = false := by rw [hst]; rfl
  refine ⟨?_, ?_, ?_, ?_, ?_, ?_⟩ <;> simp [upload, schedule, execute, h]

/-- C3 witness: concrete logged-out state rejects all three operations
without a request. -/
theorem logged_out_rejects_w :
    (upload initState "/tmp/p" none none "/" none (some [("version", "1")])).result
        = Except.ok false ∧
    (upload initState "/tmp/p" none none "/" none (some [("version", "1")])).requestSent
        = false ∧
    (schedule initState "p" "f" "c" [("status", "ok")]).result = Except.ok false ∧
    (schedule initState "p" "f" "c" [("status", "ok")]).requestSent = false ∧
    (execute initState "p" "f" [("message", "m")]).result = Except.ok false ∧
    (execute initState "p" "f" [("message", "m")]).requestSent = false :=
  logged_out_rejects initState rfl "/tmp/p" none none "/" none (some [("version", "1")])
    "p" "f" "c" [("status", "ok")] [("message", "m")]

theorem step_preserves_pairInvariant (st : AzState) (e : Event)
    (hst : pairInvariant st = true) (he : goodEvent e = true) :
    pairInvariant (step st e) = true := by
  cases e with
  | loginEv h u p o =>
      cases o with
      | none => exact hst
      | some j =>
          cases hj : j.lookup "error" with
          | some m => simpa [step, login, hj] using hst
          | none =>
              cases hs : j.lookup "session.id" with
              | none => simpa [step, login, hj, hs] using hst
              | some sid => simp [step, login, hj, hs, set_logged_session, pairInvariant]
  | logoutEv => simp [step, logout, set_logged_session, pairInvariant]
  | setSessionEv h s => simpa [step, set_logged_session, pairInvariant, goodEvent] using he
  | uploadEv path project zip_name cwd ae ro => exact hst
  | scheduleEv pr fl cr j => exact hst
  | executeEv pr fl j => exact hst

theorem foldl_step_pairInvariant (evs : List Event) (st : AzState)
    (hst : pairInvariant st = true) (h : ∀ e ∈ evs, goodEvent e = true) :
    pairInvariant (evs.foldl step st) = true := by
  induction evs generalizing st with
  | nil => exact hst
  | cons e rest ih =>
      simp only [List.foldl_cons]
      exact ih (step st e)
        (step_preserves_pairInvariant st e hst (h e (List.mem_cons_self e rest)))
        (fun x hx => h x (List.mem_cons_of_mem e hx))

/-- C4 counterexample: the claim quantifies over all states reachable
through the public operations including `set_logged_session`, which is
an unconditional overwrite — calling it with `(None, "abc")` from a
fresh instance reaches a state whose session_id is present while the
host is absent. -/
theorem pair_invariant_cex :
    pairInvariant (run [Event.setSessionEv none (some "abc")]) = false := by decide

/-- C4 (amended): in every state reachable through the public
operations in which each `set_logged_session` call passes host and
session_id both present or both absent, the stored host and session_id
are both present or both absent. -/
theorem reachable_pair_invariant (evs : List Event)
    (h : ∀ e ∈ evs, goodEvent e = true) :
    pairInvariant (run evs) = true :=
  foldl_step_pairInvariant evs initState rfl h

/-- C4 witness: a run with a successful login, a logout and a
well-formed `set_logged_session` keeps the pair invariant. -/
theorem reachable_pair_invariant_w :
    (∀ e ∈ [Event.loginEv "http://h//" "u" "p" (some [("session.id", "abc")]),
            Event.logoutEv, Event.setSessionEv (some "h2") (some "s2")],
        goodEvent e = true) ∧
    pairInvariant (run [Event.loginEv "http://h//" "u" "p" (some [("session.id", "abc")]),
            Event.logoutEv, Event.setSessionEv (some "h2") (some "s2")]) = true :=
  ⟨by decide,
   reachable_pair_invariant
     [Event.loginEv "http://h//" "u" "p" (some [("session.id", "abc")]),
      Event.logoutEv, Event.setSessionEv (some "h2") (some "s2")] (by decide)⟩

/-- C5: contrary to the claim, a response without an `error` key that
lacks the expected success field does NOT make the operation return
`False` — each operation indexes the dict directly and raises an
uncaught `KeyError`: `login` on a missing `session.id`, `upload` on a
missing `version`, `schedule` on a missing `status` (or a missing
`message` when `status` is `"error"`), `execute` on a missing
`message`. -/
theorem missing_success_keys_raise :
    (login initState "http://host" "u" "p" (some [])).result
        = Except.error "KeyError: session.id" ∧
    (upload ⟨some "http://host", some "sess"⟩ "/tmp/p" none none "/" none
        (some [])).result = Except.error "KeyError: version" ∧
    (schedule ⟨some "http://host", some "sess"⟩ "p" "f" "c" []).result
        = Except.error "KeyError: status" ∧
    (schedule ⟨some "http://host", some "sess"⟩ "p" "f" "c"
        [("status", "error")]).result = Except.error "KeyError: message" ∧
    (execute ⟨some "http://host", some "sess"⟩ "p" "f" []).result
        = Except.error "KeyError: message" := by decide

/-- C6: for a logged-in state, `schedule` returns `False` when the
response has a top-level `error` key, and also when it has no `error`
key but its `status` field is `"error"` with an accompanying `message`
field, which is logged; and whenever `schedule` returns `True`, neither
failure channel fired. -/
theorem schedule_dual_failure (st : AzState) (project flow cron : String)
    (hlog : pyTruthy st.session_id = true) :
    (∀ j : Json, (j.lookup "error").isSome = true →
        (schedule st project flow cron j).result = Except.ok false) ∧
    (∀ (j : Json) (m : String), j.lookup "error" = none →
        j.lookup "status" = some "error" → j.lookup "message" = some m →
        (schedule st project flow cron j).result = Except.ok false ∧
        m ∈ (schedule st project flow cron j).logs) ∧
    (∀ j : Json, (schedule st project flow cron j).result = Except.ok true →
        j.lookup "error" = none ∧ j.lookup "status" ≠ some "error") := by
  refine ⟨?_, ?_, ?_⟩
  · intro j hj
    obtain ⟨m, hm⟩ := Option.isSome_iff_exists.mp hj
    simp [schedule, hlog, hm]
  · intro j m he hs hm
    simp [schedule, hlog, he, hs, hm]
  · intro j h
    cases he : j.lookup "error" with
    | some m => simp [schedule, hlog, he] at h
    | none =>
        refine ⟨rfl, ?_⟩
        intro hs
        cases hm : j.lookup "message" with
        | none => simp [schedule, hlog, he, hs, hm] at h
        | some m => simp [schedule, hlog, he, hs, hm] at h

/-- C6 witness: the spec's own example — `{status: "error", message:
"bad cron"}` with no top-level `error` key returns `False` and logs
`"bad cron"`. -/
theorem schedule_dual_failure_w :
    (schedule ⟨some "http://h", some "sess"⟩ "p" "f" "c"
        [("status", "error"), ("message", "bad cron")]).result = Except.ok false ∧
    "bad cron" ∈ (schedule ⟨some "http://h", some "sess"⟩ "p" "f" "c"
        [("status", "error"), ("message", "bad cron")]).logs :=
  (schedule_dual_failure ⟨some "http://h", some "sess"⟩ "p" "f" "c" (by decide)).2.1
    [("status", "error"), ("message", "bad cron")] "bad cron"
    (by decide) (by decide) (by decide)

/-- C7: whenever `upload` reaches the archiving step successfully and
the upload request returns a body — whether it signals success, an API
error, or even lacks the `version` key — `os.remove` has already run,
so the temporary zip archive no longer exists after the call. -/
theorem upload_removes_archive (st : AzState) (path : String)
    (project zip_name : Option String) (cwd : String) (j : Json)
    (hlog : pyTruthy st.session_id = true) :
    (upload st path project zip_name cwd none (some j)).zipExistsAfter = false := by
  cases he : j.lookup "error" with
  | some m => simp [upload, hlog, he]
  | none =>
      cases hv : j.lookup "version" with
      | none => simp [upload, hlog, he, hv]
      | some v => simp [upload, hlog, he, hv]

/-- C7 witness: an upload answered with an API error leaves no zip
behind. -/
theorem upload_removes_archive_w :
    (upload ⟨some "http://h", some "sess"⟩ "/tmp/myproj" none none "/" none
        (some [("error", "Installation Failed")])).zipExistsAfter = false :=
  upload_removes_archive ⟨some "http://h", some "sess"⟩ "/tmp/myproj" none none "/"
    [("error", "Installation Failed")] (by decide)

/-- C8: when `project` is not supplied, `upload` uses the basename of
the absolute form of `path` as project name, and when `zip_name` is
not supplied the archive is named after the project (with the `.zip`
suffix `make_archive` appends). -/
theorem upload_default_names (st : AzState) (path cwd : String)
    (archiveError : Option String) (reqOutcome : Option Json)
    (hlog : pyTruthy st.session_id = true) :
    (upload st path none none cwd archiveError reqOutcome).projectUsed
        = some (basename (abspath cwd path)) ∧
    (upload st path none none cwd none reqOutcome).zipPath
        = some (basename (abspath cwd path) ++ ".zip") := by
  constructor
  · cases archiveError with
    | some e => simp [upload, hlog]
    | none =>
        cases reqOutcome with
        | none => simp [upload, hlog]
        | some j =>
            cases he : j.lookup "error" with
            | some m => simp [upload, hlog, he]
            | none =>
                cases hv : j.lookup "version" with
                | none => simp [upload, hlog, he, hv]
                | some v => simp [upload, hlog, he, hv]
  · cases reqOutcome with
    | none => simp [upload, hlog]
    | some j =>
        cases he : j.lookup "error" with
        | some m => simp [upload, hlog, he]
        | none =>
            cases hv : j.lookup "version" with
            | none => simp [upload, hlog, he, hv]
            | some v => simp [upload, hlog, he, hv]

/-- C8 witness: the spec's example — `path = "/tmp/myproj"` with no
explicit project or zip name yields project `"myproj"` and archive
`"myproj.zip"`. -/
theorem upload_default_names_w :
    (upload ⟨some "http://h", some "sess"⟩ "/tmp/myproj" none none "/" none
        (some [("version", "3")])).projectUsed = some "myproj" ∧
    (upload ⟨some "http://h", some "sess"⟩ "/tmp/myproj" none none "/" none
        (some [("version", "3")])).zipPath = some "myproj.zip" := by
  have h := upload_default_names ⟨some "http://h", some "sess"⟩ "/tmp/myproj" "/"
    none (some [("version", "3")]) (by decide)
  exact ⟨by rw [h.1]; decide, by rw [h.2]; decide⟩

/-- C9: a login answered with a body that has no `error` key and
carries a `session.id` field returns `True` and commits the normalized
host together with that session id, as `get_logged_session` then
reports. -/
theorem login_success_commits (st : AzState) (host user password : String)
    (j : Json) (sid : String)
    (herr : j.lookup "error" = none) (hsid : j.lookup "session.id" = some sid) :
    (login st host user password (some j)).result = Except.ok true ∧
    get_logged_session (login st host user password (some j)).state
        = { host := some (validate_host host), session_id := some sid } := by
  simp [login, herr, hsid, get_logged_session, set_logged_session]

/-- C9 witness: the spec's end-to-end example — a stub body
`{"session.id": "abc123"}` logs in and `get_logged_session` returns the
normalized host with `"abc123"`. -/
theorem login_success_commits_w :
    (login initState "http://host///" "u" "p"
        (some [("session.id", "abc123")])).result = Except.ok true ∧
    get_logged_session (login initState "http://host///" "u" "p"
        (some [("session.id", "abc123")])).state
        = { host := some "http://host", session_id := some "abc123" } := by
  have h := login_success_commits initState "http://host///" "u" "p"
    [("session.id", "abc123")] "abc123" (by decide) (by decide)
  have hv : validate_host "http://host///" = "http://host" := by decide
  rw [hv] at h
  exact h

/-- C10 counterexample: the claim's "exactly when" fails for `upload` —
a logged-in state (truthy session_id) whose archive creation raises
`FileNotFoundError` also returns `False` without invoking the request
layer. -/
theorem guard_truthiness_cex :
    pyTruthy (AzState.mk (some "http://h") (some "sess")).session_id = true ∧
    (upload ⟨some "http://h", some "sess"⟩ "/missing" none none "/"
        (some "No such file or directory") none).result = Except.ok false ∧
    (upload ⟨some "http://h", some "sess"⟩ "/missing" none none "/"
        (some "No such file or directory") none).requestSent = false := by decide

/-- C10 (amended): a falsy session_id (absent or empty) makes `upload`,
`schedule` and `execute` return `False` without invoking the request
layer, regardless of the stored host; conversely a truthy session_id
always sends the `schedule` and `execute` requests, and sends the
`upload` request whenever archive creation succeeds — though `upload`
can still return `False` without a request when archiving fails. -/
theorem guard_only_session_truthiness (st : AzState) (path : String)
    (project zip_name : Option String) (cwd : String) (archiveError : Option String)
    (reqOutcome : Option Json) (pr fl cr : String) (j1 j2 : Json) :
    (pyTruthy st.session_id = false →
        (upload st path project zip_name cwd archiveError reqOutcome).result
            = Except.ok false ∧
        (upload st path project zip_name cwd archiveError reqOutcome).requestSent = false ∧
        (schedule st pr fl cr j1).result = Except.ok false ∧
        (schedule st pr fl cr j1).requestSent = false ∧
        (execute st pr fl j2).result = Except.ok false ∧
        (execute st pr fl j2).requestSent = false) ∧
    (pyTruthy st.session_id = true →
        (schedule st pr fl cr j1).requestSent = true ∧
        (execute st pr fl j2).requestSent = true ∧
        (upload st path project zip_name cwd none reqOutcome).requestSent = true) := by
  constructor
  · intro h
    refine ⟨?_, ?_, ?_, ?_, ?_, ?_⟩ <;> simp [upload, schedule, execute, h]
  · intro h
    refine ⟨?_, ?_, ?_⟩
    · cases he : j1.lookup "error" with
      | some m => simp [schedule, h, he]
      | none =>
          cases hs : j1.lookup "status" with
          | none => simp [schedule, h, he, hs]
          | some status =>
              by_cases hst : status = "error"
              · cases hm : j1.lookup "message" with
                | none => simp [schedule, h, he, hs, hst, hm]
                | some m => simp [schedule, h, he, hs, hst, hm]
              · cases hm : j1.lookup "message" with
                | none => simp [schedule, h, he, hs, hst, hm]
                | some m =>
                    cases hsi : j1.lookup "scheduleId" with
                    | none => simp [schedule, h, he, hs, hst, hm, hsi]
                    | some si => simp [schedule, h, he, hs, hst, hm, hsi]
    · cases he : j2.lookup "error" with
      | some m => simp [execute, h, he]
      | none =>
          cases hm : j2.lookup "message" with
          | none => simp [execute, h, he, hm]
          | some m => simp [execute, h, he, hm]
    · cases reqOutcome with
      | none => simp [upload, h]
      | some j =>
          cases he : j.lookup "error" with
          | some m => simp [upload, h, he]
          | none =>
              cases hv : j.lookup "version" with
              | none => simp [upload, h, he, hv]
              | some v => simp [upload, h, he, hv]

/-- C10 witness: an empty-string session_id is treated as logged out
(no request), while a state with a session_id and an absent host passes
the guard and the request is sent. -/
theorem guard_only_session_truthiness_w :
    (schedule ⟨some "http://h", some ""⟩ "p" "f" "c" [("status", "ok")]).requestSent
        = false ∧
    (schedule ⟨none, some "sess"⟩ "p" "f" "c" [("status", "ok")]).requestSent = true :=
  ⟨((guard_only_session_truthiness ⟨some "http://h", some ""⟩ "x" none none "/" none none
      "p" "f" "c" [("status", "ok")] []).1 (by decide)).2.2.2.1,
   ((guard_only_session_truthiness ⟨none, some "sess"⟩ "x" none none "/" none none
      "p" "f" "c" [("status", "ok")] []).2 (by decide)).1⟩
